import Mathlib

/-!
Verification of the metadata-translation core of `obs_huntsman`
(`python/lsst/obs/huntsman/translator.py`).

The development shallowly embeds:

* the ID encoder (`_get_exposure_id`, `_get_detector_exposure_id`,
  `max_exposure_id`, `max_detector_exposure_id`);
* the device-registry lookup (`_get_camera_num_from_config`);
* the per-field memoizing field resolver (the `cache_translation`
  decorator and the `to_*` accessors);
* the end-time derivation (`to_datetime_end`).

Python integers are `Nat` (all quantities here are non-negative),
Python decimal strings of digits are `List Nat` (most significant digit
first), and fallible code returns `Except String`.
-/

/-- A Python `datetime.datetime` (the fields used by the translator).
Python enforces `1 <= year <= 9999`, `1 <= month <= 12`,
`1 <= day <= daysInMonth`, `hour <= 23`, `minute <= 59`, `second <= 59`,
`microsecond <= 999999`; `Datetime.valid` states that invariant. -/
structure Datetime where
  year : Nat
  month : Nat
  day : Nat
  hour : Nat
  minute : Nat
  second : Nat
  microsecond : Nat
deriving DecidableEq, Repr

/-- Gregorian leap-year test (as in Python's `calendar.isleap`). -/
def isLeap (y : Nat) : Bool :=
  y % 4 == 0 && (y % 100 != 0 || y % 400 == 0)

/-- Number of days of a month, as enforced by `datetime.datetime`. -/
def daysInMonth (year month : Nat) : Nat :=
  if month = 2 then (if isLeap year then 29 else 28)
  else if month = 4 ∨ month = 6 ∨ month = 9 ∨ month = 11 then 30
  else 31

/-- The range invariant `datetime.datetime` enforces at construction. -/
def Datetime.valid (d : Datetime) : Prop :=
  1 ≤ d.year ∧ d.year ≤ 9999 ∧ 1 ≤ d.month ∧ d.month ≤ 12 ∧ 1 ≤ d.day ∧
    d.day ≤ daysInMonth d.year d.month ∧ d.hour ≤ 23 ∧ d.minute ≤ 59 ∧
    d.second ≤ 59 ∧ d.microsecond ≤ 999999

instance (d : Datetime) : Decidable d.valid := by
  unfold Datetime.valid; infer_instance

/-- Chronological (lexicographic) order on datetimes.  For calendar-valid
datetimes this is exactly wall-clock order. -/
def Datetime.lexLt (a b : Datetime) : Prop :=
  a.year < b.year ∨ (a.year = b.year ∧ (a.month < b.month ∨ (a.month = b.month ∧
    (a.day < b.day ∨ (a.day = b.day ∧ (a.hour < b.hour ∨ (a.hour = b.hour ∧
      (a.minute < b.minute ∨ (a.minute = b.minute ∧ (a.second < b.second ∨
        (a.second = b.second ∧ a.microsecond < b.microsecond)))))))))))

instance (a b : Datetime) : Decidable (a.lexLt b) := by
  unfold Datetime.lexLt; infer_instance

/-- A timestamp is millisecond-truncated when it carries no
sub-millisecond precision. -/
def Datetime.msTruncated (d : Datetime) : Prop :=
  d.microsecond % 1000 = 0

instance (d : Datetime) : Decidable d.msTruncated := by
  unfold Datetime.msTruncated; infer_instance

/-- Decimal digits of `n`, most significant first, fuel-indexed so the
recursion is structural (the fuel `n + 1` always suffices). -/
def pyDigitsAux : Nat → Nat → List Nat
  | 0, _ => []
  | fuel + 1, n => if n < 10 then [n] else pyDigitsAux fuel (n / 10) ++ [n % 10]

/-- Python `str(n)` for a non-negative integer `n`, as its list of decimal
digits (most significant first); `str(0) = "0"` is the list `[0]`. -/
def pyStrDigits (n : Nat) : List Nat :=
  pyDigitsAux (n + 1) n

/-- The integer denoted by a digit string (leading zeros allowed). -/
def digitsVal (ds : List Nat) : Nat :=
  ds.foldl (fun a d => 10 * a + d) 0

/-- Python `int(s)` on a string of decimal digits: `int("")` raises
`ValueError`, otherwise the denoted value. -/
def pyInt (ds : List Nat) : Option Nat :=
  match ds with
  | [] => none
  | _ :: _ => some (digitsVal ds)

/-- Python percent-02d formatting: the digit string of `n`, zero-padded
on the left to width (at least) 2. -/
def pad2 (n : Nat) : List Nat :=
  if n < 10 then 0 :: pyStrDigits n else pyStrDigits n

/-- Python percent-03d formatting: the digit string of `n`, zero-padded
on the left to width (at least) 3. -/
def pad3 (n : Nat) : List Nat :=
  if n < 10 then 0 :: 0 :: pyStrDigits n
  else if n < 100 then 0 :: pyStrDigits n
  else pyStrDigits n

/-- The date string composed by `_get_exposure_id` by concatenating the
already formatted components year, month, day, hour, minute, second and
millisecond.  Here `y` is the value of `int(str(date.year)[2:])` and
`ms` that of `int(date.microsecond / 1E+3)`. -/
def datestrOf (y mo d h mi s ms : Nat) : List Nat :=
  pad2 y ++ pad2 mo ++ pad2 d ++ pad2 h ++ pad2 mi ++ pad2 s ++ pad3 ms

/-- Model of `HuntsmanTranslator._get_exposure_id(date)`.

* `int(str(date.year)[2:])` is `pyInt ((pyStrDigits date.year).drop 2)`
  (a `ValueError` — modelled as `.error` — when the year has fewer than
  three digits, since `int("")` raises);
* `int(date.microsecond / 1E+3)` truncates toward zero; for
  `microsecond < 10^6` the float division by `1E+3` is exact enough that
  this equals natural division by 1000;
* the composed string must have length 15, else `ValueError`;
* the result is `int(datestr)`. -/
def _get_exposure_id (date : Datetime) : Except String Nat :=
  match pyInt ((pyStrDigits date.year).drop 2) with
  | none => .error "invalid literal for int() with base 10"
  | some y =>
    let ds := datestrOf y date.month date.day date.hour date.minute date.second
      (date.microsecond / 1000)
    if ds.length = 15 then .ok (digitsVal ds)
    else .error "Date string should have length 15."

/-- Model of `HuntsmanTranslator._get_detector_exposure_id`: the integer
reading of the 2-digit zero-padded detector number concatenated with the
decimal digits of the exposure ID. -/
def _get_detector_exposure_id (detector_num exposure_id : Nat) : Nat :=
  digitsVal (pad2 detector_num ++ pyStrDigits exposure_id)

/-- Model of `HuntsmanTranslator.max_num_detectors`. -/
def max_num_detectors : Nat := 99

/-- Model of `HuntsmanTranslator._max_date`:
`datetime(year=2099, month=12, day=31, hour=23, minute=59, second=59, microsecond=999999)`. -/
def _max_date : Datetime :=
  ⟨2099, 12, 31, 23, 59, 59, 999999⟩

/-- Model of `HuntsmanTranslator.max_exposure_id()`: `_get_exposure_id(date=_max_date)`. -/
def max_exposure_id : Except String Nat :=
  _get_exposure_id _max_date

/-- Model of `HuntsmanTranslator.max_detector_exposure_id()`:
`_get_detector_exposure_id(detector_num=max_num_detectors, exposure_id=max_exposure_id())`. -/
def max_detector_exposure_id : Except String Nat :=
  match max_exposure_id with
  | .error e => .error e
  | .ok max_exp_id => .ok (_get_detector_exposure_id max_num_detectors max_exp_id)

/-- A device descriptor from the `cameras: devices` section of the
externally supplied configuration; only the `camera_name` field is read. -/
structure Device where
  camera_name : String
deriving DecidableEq, Repr

/-- The `for i, cam_config in enumerate(...)` loop of
`_get_camera_num_from_config`, with `k` the index of the list head:
the first device whose `camera_name` matches yields `i + 1`. -/
def camLoop (camera_name : String) : List Device → Nat → Option Nat
  | [], _ => none
  | c :: rest, i =>
    if c.camera_name = camera_name then some (i + 1)
    else camLoop camera_name rest (i + 1)

/-- Model of `_get_camera_num_from_config(camera_name)`: the 1-based index of the
first configured device with that name; `RuntimeError` if absent.  The
configured device list (global `HUNTSMAN_CONFIG["cameras"]["devices"]`)
is passed explicitly. -/
def _get_camera_num_from_config (devices : List Device) (camera_name : String) :
    Except String Nat :=
  match camLoop camera_name devices 0 with
  | some n => .ok n
  | none => .error ("Camera " ++ camera_name ++ " not present in config.")

/-- A value a translation method can produce (Python is dynamically
typed; the modelled accessors only ever produce these shapes). -/
inductive Value where
  | nat : Nat → Value
  | str : String → Value
  | dt : Datetime → Value
deriving DecidableEq, Repr

/-- The mutable per-record state of a translator instance: the per-field
memoization cache (`_translation_cache`) and the used-cards provenance
set (`_used_cards`), here a list that only grows. -/
structure TransState where
  cache : List (String × Value)
  used_cards : List String
deriving DecidableEq, Repr

/-- A translation step: from the current state, an outcome (`.ok` value
or a raised exception), the new state (Python state mutations survive an
exception), and the trace of header keys looked up during the step. -/
def TransM (α : Type) : Type :=
  TransState → Except String α × TransState × List String

/-- Sequencing of translation steps; an exception aborts the
continuation but keeps the state mutated so far. -/
def bindT {α β : Type} (x : TransM α) (f : α → TransM β) : TransM β :=
  fun s =>
    match x s with
    | (.ok a, s1, t1) =>
      match f a s1 with
      | (r, s2, t2) => (r, s2, t1 ++ t2)
    | (.error e, s1, t1) => (.error e, s1, t1)

/-- A step returning a value with no side effect. -/
def pureT {α : Type} (a : α) : TransM α :=
  fun s => (.ok a, s, [])

/-- Raising an exception: no state change. -/
def throwT {α : Type} (e : String) : TransM α :=
  fun s => (.error e, s, [])

/-- Model of `self._header[key]`: a header lookup, traced whether or not the key
is present; a missing key raises `KeyError`. -/
def readHeader (header : List (String × String)) (key : String) : TransM String :=
  fun s =>
    match header.lookup key with
    | some v => (.ok v, s, [key])
    | none => (.error ("KeyError: " ++ key), s, [key])

/-- Modelled from the spec: `self._used_these_cards(*keys)` of the
`astro_metadata_translator` base class (not in `src/`) records the given
header keys in the per-record used-keys set. -/
def _used_these_cards (keys : List String) : TransM Unit :=
  fun s => (.ok (), ⟨s.cache, s.used_cards ++ keys⟩, [])

/-- Modelled from the spec: the `cache_translation` decorator of
`astro_metadata_translator` (not in `src/`): each field's result is
computed at most once per record instance and memoized by field name;
a cached field is served without re-running its body; nothing is cached
when the body raises. -/
def cache_translation (field : String) (body : TransM Value) : TransM Value :=
  fun s =>
    match s.cache.lookup field with
    | some v => (.ok v, s, [])
    | none =>
      match body s with
      | (.ok v, s1, t) => (.ok v, ⟨(field, v) :: s1.cache, s1.used_cards⟩, t)
      | (.error e, s1, t) => (.error e, s1, t)

/-- The external collaborators of one translator instance: the header
record, the configured device list, the trivial-mapping table
(field name to header key, from the configuration), and the Capability
Provider functions (`parse_date` of `huntsman.drp`, and
`header_to_observation_type` of `huntsman.drp.utils.header`), all of
which are outside `src/` and enter only through this interface. -/
structure Ctx where
  header : List (String × String)
  devices : List Device
  trivialMap : List (String × String)
  parse_date : String → Except String Datetime
  header_to_observation_type :
    List (String × String) → Except String (String × List String)

/-- Modelled from the spec: trivial resolution of the base translator
(not in `src/`) for the `detector_name` field: read the mapped header
key's raw value and mark that key as used. -/
def to_detector_name (ctx : Ctx) : TransM Value :=
  cache_translation "detector_name" (
    match ctx.trivialMap.lookup "detector_name" with
    | none => throwT "KeyError: detector_name"
    | some key =>
      bindT (readHeader ctx.header key) (fun v =>
        bindT (_used_these_cards [key]) (fun _ =>
          pureT (Value.str v))))

/-- Model of `to_detector_num`: resolve the detector name, then its 1-based
position in the configured device list. -/
def to_detector_num (ctx : Ctx) : TransM Value :=
  cache_translation "detector_num" (
    bindT (to_detector_name ctx) (fun name =>
      match name with
      | .str s =>
        match _get_camera_num_from_config ctx.devices s with
        | .ok n => pureT (Value.nat n)
        | .error e => throwT e
      | _ => throwT "TypeError"))

/-- Model of `to_exposure_id`: parse `DATE-OBS`, encode it, and only then mark
`DATE-OBS` as used. -/
def to_exposure_id (ctx : Ctx) : TransM Value :=
  cache_translation "exposure_id" (
    bindT (readHeader ctx.header "DATE-OBS") (fun raw =>
      match ctx.parse_date raw with
      | .error e => throwT e
      | .ok date =>
        match _get_exposure_id date with
        | .error e => throwT e
        | .ok exp_id =>
          bindT (_used_these_cards ["DATE-OBS"]) (fun _ =>
            pureT (Value.nat exp_id))))

/-- Model of `to_visit_id`: defined as `self.to_exposure_id()`. -/
def to_visit_id (ctx : Ctx) : TransM Value :=
  cache_translation "visit_id" (to_exposure_id ctx)

/-- Model of `to_observation_counter`: defined as `self.to_exposure_id()`. -/
def to_observation_counter (ctx : Ctx) : TransM Value :=
  cache_translation "observation_counter" (to_exposure_id ctx)

/-- Model of `to_detector_exposure_id`: combine `to_exposure_id` and
`to_detector_num` through `_get_detector_exposure_id`. -/
def to_detector_exposure_id (ctx : Ctx) : TransM Value :=
  cache_translation "detector_exposure_id" (
    bindT (to_exposure_id ctx) (fun e =>
      bindT (to_detector_num ctx) (fun d =>
        match e, d with
        | .nat exp_id, .nat det_num =>
          pureT (Value.nat (_get_detector_exposure_id det_num exp_id))
        | _, _ => throwT "TypeError")))

/-- Model of `to_observation_id`: `str(self.to_detector_exposure_id())`. -/
def to_observation_id (ctx : Ctx) : TransM Value :=
  cache_translation "observation_id" (
    bindT (to_detector_exposure_id ctx) (fun v =>
      match v with
      | .nat n => pureT (Value.str (Nat.repr n))
      | _ => throwT "TypeError"))

/-- Model of `to_datetime_begin`: parse `DATE-OBS` into a timestamp, then mark
the key as used.  The `astropy.time.Time` wrapper around the parsed
datetime is the identity for our purposes. -/
def to_datetime_begin (ctx : Ctx) : TransM Value :=
  cache_translation "datetime_begin" (
    bindT (readHeader ctx.header "DATE-OBS") (fun raw =>
      match ctx.parse_date raw with
      | .error e => throwT e
      | .ok date =>
        bindT (_used_these_cards ["DATE-OBS"]) (fun _ =>
          pureT (Value.dt date))))

/-- Model of `to_observation_type`: delegate to the Capability Provider, which
returns the label and the header keys it consumed. -/
def to_observation_type (ctx : Ctx) : TransM Value :=
  cache_translation "observation_type" (
    match ctx.header_to_observation_type ctx.header with
    | .error e => throwT e
    | .ok (obs_type, used) =>
      bindT (_used_these_cards used) (fun _ =>
        pureT (Value.str obs_type)))

/-- Models an `astropy.time.Time` instant as rational seconds since an
epoch.  Adding a bare (unit-less) number to a `Time` makes astropy wrap
it in a `TimeDelta`, whose default format for plain numbers is `jd`,
i.e. the number is interpreted as DAYS: `t + x` is `x * 86400` seconds
later. -/
def timeAddBareNumber (t x : ℚ) : ℚ :=
  t + x * 86400

/-- Model of `panoptes` `get_quantity_value(quantity, unit=u.second)`: strips the
unit and returns the bare numeric value of the quantity in seconds
(quantities are modelled by their value in seconds). -/
def get_quantity_value (q : ℚ) : ℚ := q

/-- Model of `to_datetime_end`: `self.to_datetime_begin() + get_quantity_value(self.to_exposure_time(), u.second)`,
i.e. the begin time plus the bare seconds count added with astropy
`Time` addition semantics. -/
def to_datetime_end_time (datetime_begin exposure_time : ℚ) : ℚ :=
  timeAddBareNumber datetime_begin (get_quantity_value exposure_time)

/-- Example fixture: a concrete header record (the spec's worked
example), used to instantiate theorems with hypotheses on concrete
inputs. -/
def exampleHeader : List (String × String) :=
  [("DATE-OBS", "2021-03-04T12:30:45.678"), ("CAM-ID", "huntsman-cam3"),
    ("IMAGETYP", "Dark Frame")]

/-- Example fixture: the parsed begin time of `exampleHeader`. -/
def exampleDate : Datetime :=
  ⟨2021, 3, 4, 12, 30, 45, 678000⟩

/-- Example fixture: a translator context whose device registry holds
three cameras and whose header names the third one. -/
def exampleCtx : Ctx :=
  ⟨exampleHeader,
    [⟨"huntsman-cam1"⟩, ⟨"huntsman-cam2"⟩, ⟨"huntsman-cam3"⟩],
    [("detector_name", "CAM-ID")],
    fun raw => if raw = "2021-03-04T12:30:45.678" then .ok exampleDate
      else .error "unparseable date",
    fun _ => .ok ("dark", ["IMAGETYP"])⟩

/-- Example fixture: like `exampleCtx` but the header names a camera
absent from the device registry. -/
def exampleCtxUnknown : Ctx :=
  ⟨[("DATE-OBS", "2021-03-04T12:30:45.678"), ("CAM-ID", "huntsman-cam9"),
      ("IMAGETYP", "Dark Frame")],
    [⟨"huntsman-cam1"⟩, ⟨"huntsman-cam2"⟩, ⟨"huntsman-cam3"⟩],
    [("detector_name", "CAM-ID")],
    fun raw => if raw = "2021-03-04T12:30:45.678" then .ok exampleDate
      else .error "unparseable date",
    fun _ => .ok ("dark", ["IMAGETYP"])⟩


theorem pyDigitsAux_irrel (n : Nat) : ∀ f1 f2 : Nat, n < f1 → n < f2 →
    pyDigitsAux f1 n = pyDigitsAux f2 n := by
  induction n using Nat.strong_induction_on with
  | _ n ih =>
    intro f1 f2 h1 h2
    cases f1 with
    | zero => omega
    | succ f1 =>
      cases f2 with
      | zero => omega
      | succ f2 =>
        by_cases h : n < 10
        · simp [pyDigitsAux, h]
        · have hrec : n / 10 < n := Nat.div_lt_self (by omega) (by omega)
          simp only [pyDigitsAux, if_neg h]
          rw [ih (n / 10) hrec f1 f2 (by omega) (by omega)]

theorem pyStrDigits_lt10 {n : Nat} (h : n < 10) : pyStrDigits n = [n] := by
  simp [pyStrDigits, pyDigitsAux, h]

theorem pyStrDigits_ge10 {n : Nat} (h : 10 ≤ n) :
    pyStrDigits n = pyStrDigits (n / 10) ++ [n % 10] := by
  have h10 : ¬ n < 10 := by omega
  have hrec : n / 10 < n := Nat.div_lt_self (by omega) (by omega)
  unfold pyStrDigits
  rw [show pyDigitsAux (n + 1) n =
      if n < 10 then [n] else pyDigitsAux n (n / 10) ++ [n % 10] from rfl,
    if_neg h10,
    pyDigitsAux_irrel (n / 10) n (n / 10 + 1) (by omega) (by omega)]

theorem digitsVal_nil : digitsVal [] = 0 := rfl

theorem digitsVal_singleton (d : Nat) : digitsVal [d] = d := by
  simp [digitsVal]

theorem digitsVal_cons_zero (l : List Nat) : digitsVal (0 :: l) = digitsVal l := by
  simp [digitsVal]

theorem digitsVal_foldl_acc (l : List Nat) : ∀ a : Nat,
    l.foldl (fun a d => 10 * a + d) a = a * 10 ^ l.length + digitsVal l := by
  induction l with
  | nil => intro a; simp [digitsVal]
  | cons d l ih =>
    intro a
    have hd : digitsVal (d :: l) = d * 10 ^ l.length + digitsVal l := by
      have h0 : digitsVal (d :: l) = l.foldl (fun a d => 10 * a + d) d := by
        simp [digitsVal]
      rw [h0, ih d]
    simp only [List.foldl_cons, List.length_cons]
    rw [ih (10 * a + d), hd]
    ring

theorem digitsVal_append (l1 l2 : List Nat) :
    digitsVal (l1 ++ l2) = digitsVal l1 * 10 ^ l2.length + digitsVal l2 := by
  have h : digitsVal (l1 ++ l2) =
      (l1 ++ l2).foldl (fun a d => 10 * a + d) 0 := rfl
  rw [h, List.foldl_append, digitsVal_foldl_acc]
  rfl

theorem digitsVal_pyStrDigits (n : Nat) : digitsVal (pyStrDigits n) = n := by
  induction n using Nat.strong_induction_on with
  | _ n ih =>
    by_cases h : n < 10
    · rw [pyStrDigits_lt10 h, digitsVal_singleton]
    · rw [pyStrDigits_ge10 (by omega), digitsVal_append,
        ih (n / 10) (Nat.div_lt_self (by omega) (by omega))]
      simp [digitsVal_singleton]
      omega

theorem pyStrDigits_length (k : Nat) : ∀ n, 10 ^ k ≤ n → n < 10 ^ (k + 1) →
    (pyStrDigits n).length = k + 1 := by
  induction k with
  | zero =>
    intro n h1 h2
    rw [pyStrDigits_lt10 (by simpa using h2)]
    rfl
  | succ k ih =>
    intro n h1 h2
    have hpow : (10 : Nat) ≤ 10 ^ (k + 1) := by
      calc (10 : Nat) = 10 ^ 1 := (pow_one 10).symm
      _ ≤ 10 ^ (k + 1) := Nat.pow_le_pow_right (by norm_num) (by omega)
    have h10 : 10 ≤ n := le_trans hpow h1
    have hb1 : 10 ^ k ≤ n / 10 := by
      rw [Nat.le_div_iff_mul_le (by norm_num)]
      calc 10 ^ k * 10 = 10 ^ (k + 1) := (pow_succ 10 k).symm
      _ ≤ n := h1
    have hb2 : n / 10 < 10 ^ (k + 1) := by
      rw [Nat.div_lt_iff_lt_mul (by norm_num)]
      calc n < 10 ^ (k + 1 + 1) := h2
      _ = 10 ^ (k + 1) * 10 := pow_succ 10 (k + 1)
    rw [pyStrDigits_ge10 h10]
    simp only [List.length_append, List.length_cons, List.length_nil]
    rw [ih (n / 10) hb1 hb2]

theorem pyStrDigits_two {n : Nat} (h1 : 10 ≤ n) (h2 : n < 100) :
    pyStrDigits n = [n / 10, n % 10] := by
  rw [pyStrDigits_ge10 h1, pyStrDigits_lt10 (by omega)]
  rfl

theorem pyStrDigits_three {n : Nat} (h1 : 100 ≤ n) (h2 : n < 1000) :
    pyStrDigits n = [n / 100, n / 10 % 10, n % 10] := by
  rw [pyStrDigits_ge10 (by omega), pyStrDigits_two (by omega) (by omega)]
  have e1 : n / 10 / 10 = n / 100 := by
    rw [Nat.div_div_eq_div_mul]
  rw [e1]
  rfl

theorem pyStrDigits_four {n : Nat} (h1 : 1000 ≤ n) (h2 : n < 10000) :
    pyStrDigits n = [n / 1000, n / 100 % 10, n / 10 % 10, n % 10] := by
  rw [pyStrDigits_ge10 (by omega), pyStrDigits_three (by omega) (by omega)]
  have e1 : n / 10 / 100 = n / 1000 := by
    rw [Nat.div_div_eq_div_mul]
  have e2 : n / 10 / 10 = n / 100 := by
    rw [Nat.div_div_eq_div_mul]
  rw [e1, e2]
  rfl

theorem yearTail_none {n : Nat} (h : n < 100) :
    pyInt ((pyStrDigits n).drop 2) = none := by
  by_cases h10 : n < 10
  · rw [pyStrDigits_lt10 h10]
    rfl
  · rw [pyStrDigits_two (by omega) h]
    rfl

theorem yearTail_three {n : Nat} (h1 : 100 ≤ n) (h2 : n < 1000) :
    pyInt ((pyStrDigits n).drop 2) = some (n % 10) := by
  rw [pyStrDigits_three h1 h2]
  simp [pyInt, digitsVal]

theorem yearTail_four {n : Nat} (h1 : 1000 ≤ n) (h2 : n < 10000) :
    pyInt ((pyStrDigits n).drop 2) = some (n % 100) := by
  rw [pyStrDigits_four h1 h2]
  simp [pyInt, digitsVal]
  omega

theorem yearTail_lt100 {n y : Nat} (hn : n ≤ 9999)
    (h : pyInt ((pyStrDigits n).drop 2) = some y) : y < 100 := by
  rcases lt_or_le n 100 with h1 | h1
  · rw [yearTail_none h1] at h
    cases h
  · rcases lt_or_le n 1000 with h2 | h2
    · rw [yearTail_three h1 h2] at h
      injection h with h'
      omega
    · rw [yearTail_four h2 (by omega)] at h
      injection h with h'
      omega

theorem pad2_val (n : Nat) : digitsVal (pad2 n) = n := by
  unfold pad2
  by_cases h : n < 10
  · rw [if_pos h, digitsVal_cons_zero, digitsVal_pyStrDigits]
  · rw [if_neg h, digitsVal_pyStrDigits]

theorem pad2_length {n : Nat} (h : n < 100) : (pad2 n).length = 2 := by
  unfold pad2
  by_cases h10 : n < 10
  · rw [if_pos h10, pyStrDigits_lt10 h10]
    rfl
  · rw [if_neg h10, pyStrDigits_two (by omega) h]
    rfl

theorem pad3_val (n : Nat) : digitsVal (pad3 n) = n := by
  unfold pad3
  by_cases h10 : n < 10
  · rw [if_pos h10, digitsVal_cons_zero, digitsVal_cons_zero, digitsVal_pyStrDigits]
  · rw [if_neg h10]
    by_cases h100 : n < 100
    · rw [if_pos h100, digitsVal_cons_zero, digitsVal_pyStrDigits]
    · rw [if_neg h100, digitsVal_pyStrDigits]

theorem pad3_length {n : Nat} (h : n < 1000) : (pad3 n).length = 3 := by
  unfold pad3
  by_cases h10 : n < 10
  · rw [if_pos h10, pyStrDigits_lt10 h10]
    rfl
  · rw [if_neg h10]
    by_cases h100 : n < 100
    · rw [if_pos h100, pyStrDigits_two (by omega) h100]
      rfl
    · rw [if_neg h100, pyStrDigits_three (by omega) h]
      rfl

theorem datestrOf_length {y mo d h mi s ms : Nat}
    (hy : y < 100) (hmo : mo < 100) (hd : d < 100) (hh : h < 100)
    (hmi : mi < 100) (hs : s < 100) (hms : ms < 1000) :
    (datestrOf y mo d h mi s ms).length = 15 := by
  unfold datestrOf
  simp only [List.length_append]
  rw [pad2_length hy, pad2_length hmo, pad2_length hd, pad2_length hh,
    pad2_length hmi, pad2_length hs, pad3_length hms]

theorem datestrOf_val {y mo d h mi s ms : Nat}
    (hy : y < 100) (hmo : mo < 100) (hd : d < 100) (hh : h < 100)
    (hmi : mi < 100) (hs : s < 100) (hms : ms < 1000) :
    digitsVal (datestrOf y mo d h mi s ms) =
      y * 10 ^ 13 + mo * 10 ^ 11 + d * 10 ^ 9 + h * 10 ^ 7 + mi * 10 ^ 5 +
        s * 10 ^ 3 + ms := by
  unfold datestrOf
  rw [digitsVal_append, digitsVal_append, digitsVal_append, digitsVal_append,
    digitsVal_append, digitsVal_append]
  rw [pad2_val, pad2_val, pad2_val, pad2_val, pad2_val, pad2_val, pad3_val]
  rw [pad2_length hmo, pad2_length hd, pad2_length hh, pad2_length hmi,
    pad2_length hs, pad3_length hms]
  ring

theorem _get_exposure_id_ok (d : Datetime) (y : Nat)
    (hy : pyInt ((pyStrDigits d.year).drop 2) = some y)
    (hy100 : y < 100) (hmo : d.month < 100) (hd : d.day < 100)
    (hh : d.hour < 100) (hmi : d.minute < 100) (hs : d.second < 100)
    (hms : d.microsecond / 1000 < 1000) :
    _get_exposure_id d = .ok (y * 10 ^ 13 + d.month * 10 ^ 11 + d.day * 10 ^ 9 +
      d.hour * 10 ^ 7 + d.minute * 10 ^ 5 + d.second * 10 ^ 3 +
      d.microsecond / 1000) := by
  unfold _get_exposure_id
  rw [hy]
  dsimp only
  rw [if_pos (datestrOf_length hy100 hmo hd hh hmi hs hms),
    datestrOf_val hy100 hmo hd hh hmi hs hms]

theorem _get_exposure_id_len_error (d : Datetime) (y : Nat)
    (hy : pyInt ((pyStrDigits d.year).drop 2) = some y)
    (hlen : (datestrOf y d.month d.day d.hour d.minute d.second
      (d.microsecond / 1000)).length ≠ 15) :
    _get_exposure_id d = .error "Date string should have length 15." := by
  unfold _get_exposure_id
  rw [hy]
  dsimp only
  rw [if_neg hlen]

theorem daysInMonth_le_31 (y m : Nat) : daysInMonth y m ≤ 31 := by
  unfold daysInMonth
  split
  · split <;> omega
  · split <;> omega

/-- C1 counterexample.  `datetime(150, 1, 1)` composes a well-formed
15-character date string (`"000101000000000"`), yet the result is not the
concatenation led by the 2-digit year-of-century `150 % 100 = 50`: the
code strips the first two characters of `str(150)`, yielding `0`, so it
returns `101000000000` instead of `500101000000000`. -/
theorem exposure_id_year_of_century_cex :
    _get_exposure_id ⟨150, 1, 1, 0, 0, 0, 0⟩ = .ok 101000000000 ∧
    (datestrOf 0 1 1 0 0 0 0).length = 15 ∧
    150 % 100 = 50 ∧
    (101000000000 : Nat) ≠
      50 * 10 ^ 13 + 1 * 10 ^ 11 + 1 * 10 ^ 9 + 0 * 10 ^ 7 + 0 * 10 ^ 5 +
        0 * 10 ^ 3 + 0 := by
  exact ⟨rfl, rfl, rfl, by norm_num⟩

/-- C1 (amended).  For every valid datetime with a four-digit year,
`_get_exposure_id` returns the integer obtained by concatenating the
2-digit year-of-century (`year % 100` — in general the year's digits
after the first two are removed), month, day, hour, minute, second (all
zero-padded to 2 digits) and the millisecond (`microsecond / 1000`,
truncated toward zero, zero-padded to 3 digits); and whenever the
composed string's length differs from 15 the function raises a hard
error instead of returning a value. -/
theorem exposure_id_concatenation (d : Datetime) :
    (d.valid → 1000 ≤ d.year →
      _get_exposure_id d = .ok (d.year % 100 * 10 ^ 13 + d.month * 10 ^ 11 +
        d.day * 10 ^ 9 + d.hour * 10 ^ 7 + d.minute * 10 ^ 5 +
        d.second * 10 ^ 3 + d.microsecond / 1000)) ∧
    (∀ y, pyInt ((pyStrDigits d.year).drop 2) = some y →
      (datestrOf y d.month d.day d.hour d.minute d.second
        (d.microsecond / 1000)).length ≠ 15 →
      _get_exposure_id d = .error "Date string should have length 15.") := by
  constructor
  · intro hv hy4
    obtain ⟨hy1, h9999, hmo1, hmo, hd1, hday, hh, hmi, hs, hμ⟩ := hv
    have hday31 : d.day ≤ 31 := le_trans hday (daysInMonth_le_31 _ _)
    exact _get_exposure_id_ok d (d.year % 100)
      (yearTail_four hy4 (by omega)) (by omega) (by omega) (by omega)
      (by omega) (by omega) (by omega) (by omega)
  · intro y hy hlen
    exact _get_exposure_id_len_error d y hy hlen

/-- Witness for `exposure_id_concatenation`: the spec's worked example
`2021-03-04T12:30:45.678901` encodes to `210304123045678` (sub-millisecond
digits truncated), and an out-of-range component (month 100) makes the
composed string 16 characters long, a hard error. -/
theorem exposure_id_concatenation_witness :
    _get_exposure_id ⟨2021, 3, 4, 12, 30, 45, 678901⟩ = .ok 210304123045678 ∧
    _get_exposure_id ⟨2021, 100, 1, 0, 0, 0, 0⟩ =
      .error "Date string should have length 15." := by
  constructor
  · rw [(exposure_id_concatenation ⟨2021, 3, 4, 12, 30, 45, 678901⟩).1
      (by decide) (by norm_num)]
    norm_num
  · exact (exposure_id_concatenation ⟨2021, 100, 1, 0, 0, 0, 0⟩).2 21
      (by decide) (by decide)

/-- C2 counterexample.  `datetime(2000, 1, 1)` lies between year 0 and
the configured maximum, but its exposure ID `101000000000` has 12 decimal
digits, not 15: the year-of-century field `00` disappears as a leading
zero once the composed string is converted to an integer. -/
theorem exposure_id_digit_count_cex :
    _get_exposure_id ⟨2000, 1, 1, 0, 0, 0, 0⟩ = .ok 101000000000 ∧
    (pyStrDigits 101000000000).length = 12 ∧ (12 : Nat) ≠ 15 := by
  exact ⟨rfl, by decide, by norm_num⟩

/-- C2 (amended).  For every valid date with a four-digit year whose
year-of-century is at least 10 (in particular every date from 2010-01-01
up to the configured maximum 2099-12-31T23:59:59.999999), the exposure ID
has exactly 15 decimal digits. -/
theorem exposure_id_digit_count (d : Datetime) (v : Nat)
    (hv : d.valid) (hy4 : 1000 ≤ d.year) (hyc : 10 ≤ d.year % 100)
    (hok : _get_exposure_id d = .ok v) :
    (pyStrDigits v).length = 15 := by
  obtain ⟨hy1, h9999, hmo1, hmo, hd1, hday, hh, hmi, hs, hμ⟩ := hv
  have hday31 : d.day ≤ 31 := le_trans hday (daysInMonth_le_31 _ _)
  have hF := _get_exposure_id_ok d (d.year % 100)
    (yearTail_four hy4 (by omega)) (by omega) (by omega) (by omega)
    (by omega) (by omega) (by omega) (by omega)
  rw [hok] at hF
  injection hF with hF
  norm_num at hF
  exact pyStrDigits_length 14 v (by norm_num; omega) (by norm_num; omega)

/-- Witness for `exposure_id_digit_count` at the configured maximum date. -/
theorem exposure_id_digit_count_witness :
    (pyStrDigits 991231235959999).length = 15 := by
  exact exposure_id_digit_count _max_date 991231235959999 (by decide)
    (by decide) (by decide) rfl

/-- C3 counterexample.  Both timestamps are valid and
millisecond-truncated and `1999-12-31T23:59:59.999` precedes
`2000-01-01T00:00:00.000`, yet the exposure IDs go DOWN across the
century boundary (`991231235959999` to `101000000000`): the two-digit
year field wraps. -/
theorem exposure_id_monotone_cex :
    Datetime.valid ⟨1999, 12, 31, 23, 59, 59, 999000⟩ ∧
    Datetime.valid ⟨2000, 1, 1, 0, 0, 0, 0⟩ ∧
    Datetime.msTruncated ⟨1999, 12, 31, 23, 59, 59, 999000⟩ ∧
    Datetime.msTruncated ⟨2000, 1, 1, 0, 0, 0, 0⟩ ∧
    Datetime.lexLt ⟨1999, 12, 31, 23, 59, 59, 999000⟩ ⟨2000, 1, 1, 0, 0, 0, 0⟩ ∧
    _get_exposure_id ⟨1999, 12, 31, 23, 59, 59, 999000⟩ = .ok 991231235959999 ∧
    _get_exposure_id ⟨2000, 1, 1, 0, 0, 0, 0⟩ = .ok 101000000000 ∧
    ¬ (991231235959999 < 101000000000) := by
  exact ⟨by decide, by decide, by decide, by decide, by decide, rfl, rfl,
    by norm_num⟩

/-- C3 (amended).  The encoding is strictly monotonic at millisecond
resolution for valid millisecond-truncated timestamps within one century:
when both years have four digits and the same leading two digits
(`year / 100` equal, e.g. both in 2000–2099), `t1 < t2` implies
`exposureId(t1) < exposureId(t2)`. -/
theorem exposure_id_monotone (t1 t2 : Datetime) (v1 v2 : Nat)
    (h1 : t1.valid) (h2 : t2.valid)
    (hy1 : 1000 ≤ t1.year) (hcent : t1.year / 100 = t2.year / 100)
    (hms1 : t1.msTruncated) (hms2 : t2.msTruncated)
    (hlt : t1.lexLt t2)
    (hok1 : _get_exposure_id t1 = .ok v1)
    (hok2 : _get_exposure_id t2 = .ok v2) :
    v1 < v2 := by
  have hy2 : 1000 ≤ t2.year := by omega
  obtain ⟨ha1, ha2, ha3, ha4, ha5, ha6, ha7, ha8, ha9, ha10⟩ := h1
  obtain ⟨hb1, hb2, hb3, hb4, hb5, hb6, hb7, hb8, hb9, hb10⟩ := h2
  have hday1 : t1.day ≤ 31 := le_trans ha6 (daysInMonth_le_31 _ _)
  have hday2 : t2.day ≤ 31 := le_trans hb6 (daysInMonth_le_31 _ _)
  have hF1 := _get_exposure_id_ok t1 (t1.year % 100)
    (yearTail_four hy1 (by omega)) (by omega) (by omega) (by omega)
    (by omega) (by omega) (by omega) (by omega)
  have hF2 := _get_exposure_id_ok t2 (t2.year % 100)
    (yearTail_four hy2 (by omega)) (by omega) (by omega) (by omega)
    (by omega) (by omega) (by omega) (by omega)
  rw [hok1] at hF1
  rw [hok2] at hF2
  injection hF1 with hF1
  injection hF2 with hF2
  norm_num at hF1 hF2
  unfold Datetime.lexLt at hlt
  unfold Datetime.msTruncated at hms1 hms2
  omega

/-- Witness for `exposure_id_monotone`: one day apart inside March 2021. -/
theorem exposure_id_monotone_witness :
    (210304123045678 : Nat) < 210305000000000 := by
  exact exposure_id_monotone ⟨2021, 3, 4, 12, 30, 45, 678000⟩
    ⟨2021, 3, 5, 0, 0, 0, 0⟩ 210304123045678 210305000000000
    (by decide) (by decide) (by decide) (by decide) (by decide) (by decide)
    (by decide) rfl rfl

theorem _get_detector_exposure_id_eq (dn e : Nat)
    (he1 : 10 ^ 14 ≤ e) (he2 : e < 10 ^ 15) :
    _get_detector_exposure_id dn e = dn * 10 ^ 15 + e := by
  have hlen : (pyStrDigits e).length = 15 :=
    pyStrDigits_length 14 e he1 (by norm_num at he2 ⊢; omega)
  unfold _get_detector_exposure_id
  rw [digitsVal_append, pad2_val, digitsVal_pyStrDigits, hlen]

/-- C4 counterexample.  With detector number 3 (in `[0, 99]`) and the
15-digit exposure ID of the spec's worked example, the result
`3210304123045678` has 16 decimal digits, not 17, and its first two
digits are `32`, not the zero-padded detector number `03`: the leading
zero of the 2-digit formatting of 3 vanishes when the composed string
is converted to
an integer. -/
theorem detector_exposure_id_cex :
    _get_detector_exposure_id 3 210304123045678 = 3210304123045678 ∧
    (pyStrDigits 3210304123045678).length = 16 ∧ (16 : Nat) ≠ 17 ∧
    (pyStrDigits 3210304123045678).take 2 = [3, 2] ∧ [3, 2] ≠ [0, 3] := by
  exact ⟨rfl, by decide, by norm_num, by decide, by decide⟩

/-- C4 (amended).  For a detector number `dn` in `[0, 99]` and a
15-digit exposure ID `e`, the detector exposure ID equals
`dn * 10^15 + e` — i.e. the 17-character zero-padded decimal rendering
starts with `dn` zero-padded to two digits and ends with the 15 digits
of `e` (the integer itself has 17 digits only when `dn ≥ 10`) — and the
pair `(dn, e)` is uniquely recoverable from it by division and remainder
by `10^15`. -/
theorem detector_exposure_id_decompose (dn e : Nat)
    (hd : dn ≤ 99) (he1 : 10 ^ 14 ≤ e) (he2 : e < 10 ^ 15) :
    _get_detector_exposure_id dn e = dn * 10 ^ 15 + e ∧
    (dn * 10 ^ 15 + e) / 10 ^ 15 = dn ∧
    (dn * 10 ^ 15 + e) % 10 ^ 15 = e ∧
    (∀ dn' e', dn' ≤ 99 → 10 ^ 14 ≤ e' → e' < 10 ^ 15 →
      _get_detector_exposure_id dn' e' = _get_detector_exposure_id dn e →
      dn' = dn ∧ e' = e) := by
  refine ⟨_get_detector_exposure_id_eq dn e he1 he2, ?_, ?_, ?_⟩
  · norm_num at he2 ⊢
    omega
  · norm_num at he2 ⊢
    omega
  · intro dn' e' hd' he1' he2' heq
    rw [_get_detector_exposure_id_eq dn' e' he1' he2',
      _get_detector_exposure_id_eq dn e he1 he2] at heq
    norm_num at he2 he2' heq
    omega

/-- Witness for `detector_exposure_id_decompose` at the spec's worked
example (detector 3). -/
theorem detector_exposure_id_decompose_witness :
    _get_detector_exposure_id 3 210304123045678 = 3 * 10 ^ 15 + 210304123045678 ∧
    (3 * 10 ^ 15 + 210304123045678) / 10 ^ 15 = 3 := by
  obtain ⟨hone, htwo, _, _⟩ := detector_exposure_id_decompose 3 210304123045678
    (by norm_num) (by norm_num) (by norm_num)
  exact ⟨hone, htwo⟩

/-- C5 (code bug).  `to_datetime_end` strips the unit from the
exposure time (`get_quantity_value(..., u.second)`) and adds the bare
number to the astropy `Time`; astropy interprets a bare number as a
`TimeDelta` in days, so `datetimeEnd - datetimeBegin` is `86400 *
exposureTime` seconds, not `exposureTime` seconds.  At the spec's
example exposure time of 30 s the end time lands 2592000 s (30 days)
after the begin time. -/
theorem datetime_end_adds_days :
    (∀ t q : ℚ, to_datetime_end_time t q - t = 86400 * q) ∧
    to_datetime_end_time 0 30 - 0 = 2592000 ∧ ((2592000 : ℚ) ≠ 30) := by
  refine ⟨fun t q => ?_, ?_, by norm_num⟩
  · unfold to_datetime_end_time timeAddBareNumber get_quantity_value
    ring
  · unfold to_datetime_end_time timeAddBareNumber get_quantity_value
    norm_num

/-- C6.  `max_exposure_id()` is `_get_exposure_id(_max_date)`, its
value is `991231235959999`, no valid date whatsoever encodes to a larger
value, and `max_detector_exposure_id()` is `_get_detector_exposure_id`
at the maximum detector count 99 and `max_exposure_id()`. -/
theorem max_ids_spec :
    max_exposure_id = _get_exposure_id _max_date ∧
    max_exposure_id = .ok 991231235959999 ∧
    (∀ d : Datetime, d.valid → ∀ v, _get_exposure_id d = .ok v →
      v ≤ 991231235959999) ∧
    max_detector_exposure_id =
      .ok (_get_detector_exposure_id max_num_detectors 991231235959999) ∧
    _get_detector_exposure_id max_num_detectors 991231235959999 =
      99991231235959999 := by
  refine ⟨rfl, rfl, ?_, rfl, rfl⟩
  intro d hv v hok
  obtain ⟨hy1, h9999, hmo1, hmo, hd1, hday, hh, hmi, hs, hμ⟩ := hv
  have hday31 : d.day ≤ 31 := le_trans hday (daysInMonth_le_31 _ _)
  cases hyt : pyInt ((pyStrDigits d.year).drop 2) with
  | none =>
    unfold _get_exposure_id at hok
    rw [hyt] at hok
    exact Except.noConfusion hok
  | some y =>
    have hy100 : y < 100 := yearTail_lt100 h9999 hyt
    have hF := _get_exposure_id_ok d y hyt hy100 (by omega) (by omega)
      (by omega) (by omega) (by omega) (by omega)
    rw [hok] at hF
    injection hF with hF
    norm_num at hF
    omega

/-- Witness for `max_ids_spec`: the maximum date itself attains the bound. -/
theorem max_ids_spec_witness :
    (991231235959999 : Nat) ≤ 991231235959999 := by
  exact max_ids_spec.2.2.1 _max_date (by decide) 991231235959999 rfl

theorem cache_translation_hit (field : String) (body : TransM Value)
    (s : TransState) (v : Value) (h : s.cache.lookup field = some v) :
    cache_translation field body s = (.ok v, s, []) := by
  unfold cache_translation
  rw [h]

theorem to_exposure_id_hit (ctx : Ctx) (s : TransState) (v : Value)
    (h : s.cache.lookup "exposure_id" = some v) :
    to_exposure_id ctx s = (.ok v, s, []) := by
  unfold to_exposure_id cache_translation
  rw [h]

theorem to_detector_exposure_id_hit (ctx : Ctx) (s : TransState) (v : Value)
    (h : s.cache.lookup "detector_exposure_id" = some v) :
    to_detector_exposure_id ctx s = (.ok v, s, []) := by
  unfold to_detector_exposure_id cache_translation
  rw [h]

theorem to_exposure_id_run_ok (ctx : Ctx) (s : TransState) (raw : String)
    (dt : Datetime) (ev : Nat)
    (hc : s.cache.lookup "exposure_id" = none)
    (hraw : ctx.header.lookup "DATE-OBS" = some raw)
    (hdt : ctx.parse_date raw = .ok dt)
    (hev : _get_exposure_id dt = .ok ev) :
    to_exposure_id ctx s = (.ok (Value.nat ev),
      ⟨("exposure_id", Value.nat ev) :: s.cache, s.used_cards ++ ["DATE-OBS"]⟩,
      ["DATE-OBS"]) := by
  unfold to_exposure_id cache_translation bindT readHeader throwT pureT
    _used_these_cards
  rw [hc, hraw]
  dsimp only
  rw [hdt]
  dsimp only
  rw [hev]
  rfl

theorem to_exposure_id_err_missing (ctx : Ctx) (s : TransState)
    (hc : s.cache.lookup "exposure_id" = none)
    (hh : ctx.header.lookup "DATE-OBS" = none) :
    to_exposure_id ctx s = (.error ("KeyError: " ++ "DATE-OBS"), s, ["DATE-OBS"]) := by
  unfold to_exposure_id cache_translation bindT readHeader throwT pureT
    _used_these_cards
  rw [hc, hh]

theorem to_exposure_id_err_parse (ctx : Ctx) (s : TransState) (raw e : String)
    (hc : s.cache.lookup "exposure_id" = none)
    (hraw : ctx.header.lookup "DATE-OBS" = some raw)
    (hdt : ctx.parse_date raw = .error e) :
    to_exposure_id ctx s = (.error e, s, ["DATE-OBS"]) := by
  unfold to_exposure_id cache_translation bindT readHeader throwT pureT
    _used_these_cards
  rw [hc, hraw]
  dsimp only
  rw [hdt]
  rfl

theorem to_exposure_id_err_encode (ctx : Ctx) (s : TransState) (raw e : String)
    (dt : Datetime)
    (hc : s.cache.lookup "exposure_id" = none)
    (hraw : ctx.header.lookup "DATE-OBS" = some raw)
    (hdt : ctx.parse_date raw = .ok dt)
    (hev : _get_exposure_id dt = .error e) :
    to_exposure_id ctx s = (.error e, s, ["DATE-OBS"]) := by
  unfold to_exposure_id cache_translation bindT readHeader throwT pureT
    _used_these_cards
  rw [hc, hraw]
  dsimp only
  rw [hdt]
  dsimp only
  rw [hev]
  rfl

theorem to_datetime_begin_hit (ctx : Ctx) (s : TransState) (v : Value)
    (h : s.cache.lookup "datetime_begin" = some v) :
    to_datetime_begin ctx s = (.ok v, s, []) := by
  unfold to_datetime_begin cache_translation
  rw [h]

theorem to_datetime_begin_run_ok (ctx : Ctx) (s : TransState) (raw : String)
    (dt : Datetime)
    (hc : s.cache.lookup "datetime_begin" = none)
    (hraw : ctx.header.lookup "DATE-OBS" = some raw)
    (hdt : ctx.parse_date raw = .ok dt) :
    to_datetime_begin ctx s = (.ok (Value.dt dt),
      ⟨("datetime_begin", Value.dt dt) :: s.cache, s.used_cards ++ ["DATE-OBS"]⟩,
      ["DATE-OBS"]) := by
  unfold to_datetime_begin cache_translation bindT readHeader throwT pureT
    _used_these_cards
  rw [hc, hraw]
  dsimp only
  rw [hdt]
  rfl

theorem to_datetime_begin_err_missing (ctx : Ctx) (s : TransState)
    (hc : s.cache.lookup "datetime_begin" = none)
    (hh : ctx.header.lookup "DATE-OBS" = none) :
    to_datetime_begin ctx s =
      (.error ("KeyError: " ++ "DATE-OBS"), s, ["DATE-OBS"]) := by
  unfold to_datetime_begin cache_translation bindT readHeader throwT pureT
    _used_these_cards
  rw [hc, hh]

theorem to_datetime_begin_err_parse (ctx : Ctx) (s : TransState) (raw e : String)
    (hc : s.cache.lookup "datetime_begin" = none)
    (hraw : ctx.header.lookup "DATE-OBS" = some raw)
    (hdt : ctx.parse_date raw = .error e) :
    to_datetime_begin ctx s = (.error e, s, ["DATE-OBS"]) := by
  unfold to_datetime_begin cache_translation bindT readHeader throwT pureT
    _used_these_cards
  rw [hc, hraw]
  dsimp only
  rw [hdt]
  rfl

theorem to_detector_name_run (ctx : Ctx) (s : TransState) (key nm : String)
    (hc : s.cache.lookup "detector_name" = none)
    (hkey : ctx.trivialMap.lookup "detector_name" = some key)
    (hnm : ctx.header.lookup key = some nm) :
    to_detector_name ctx s = (.ok (Value.str nm),
      ⟨("detector_name", Value.str nm) :: s.cache, s.used_cards ++ [key]⟩,
      [key]) := by
  unfold to_detector_name cache_translation bindT readHeader throwT pureT
    _used_these_cards
  rw [hc, hkey]
  dsimp only
  rw [hnm]
  rfl

theorem to_detector_num_run_fail (ctx : Ctx) (s : TransState) (key nm err : String)
    (hc1 : s.cache.lookup "detector_num" = none)
    (hc2 : s.cache.lookup "detector_name" = none)
    (hkey : ctx.trivialMap.lookup "detector_name" = some key)
    (hnm : ctx.header.lookup key = some nm)
    (hcam : _get_camera_num_from_config ctx.devices nm = .error err) :
    to_detector_num ctx s = (.error err,
      ⟨("detector_name", Value.str nm) :: s.cache, s.used_cards ++ [key]⟩,
      [key]) := by
  unfold to_detector_num cache_translation bindT throwT pureT
  rw [hc1, to_detector_name_run ctx s key nm hc2 hkey hnm]
  dsimp only
  rw [hcam]
  rfl

theorem to_detector_num_run_ok (ctx : Ctx) (s : TransState) (key nm : String)
    (dn : Nat)
    (hc1 : s.cache.lookup "detector_num" = none)
    (hc2 : s.cache.lookup "detector_name" = none)
    (hkey : ctx.trivialMap.lookup "detector_name" = some key)
    (hnm : ctx.header.lookup key = some nm)
    (hcam : _get_camera_num_from_config ctx.devices nm = .ok dn) :
    to_detector_num ctx s = (.ok (Value.nat dn),
      ⟨("detector_num", Value.nat dn) ::
        ("detector_name", Value.str nm) :: s.cache, s.used_cards ++ [key]⟩,
      [key]) := by
  unfold to_detector_num cache_translation bindT throwT pureT
  rw [hc1, to_detector_name_run ctx s key nm hc2 hkey hnm]
  dsimp only
  rw [hcam]
  rfl

theorem to_visit_id_run (ctx : Ctx) (s : TransState) (v : Value)
    (hc : s.cache.lookup "visit_id" = none)
    (hhit : s.cache.lookup "exposure_id" = some v) :
    to_visit_id ctx s = (.ok v, ⟨("visit_id", v) :: s.cache, s.used_cards⟩, []) := by
  unfold to_visit_id cache_translation
  rw [hc, to_exposure_id_hit ctx s v hhit]

theorem to_observation_counter_run (ctx : Ctx) (s : TransState) (v : Value)
    (hc : s.cache.lookup "observation_counter" = none)
    (hhit : s.cache.lookup "exposure_id" = some v) :
    to_observation_counter ctx s =
      (.ok v, ⟨("observation_counter", v) :: s.cache, s.used_cards⟩, []) := by
  unfold to_observation_counter cache_translation
  rw [hc, to_exposure_id_hit ctx s v hhit]

theorem to_detector_exposure_id_run_ok (ctx : Ctx) (s s1 s2 : TransState)
    (ev dn : Nat) (t1 t2 : List String)
    (hc : s.cache.lookup "detector_exposure_id" = none)
    (he : to_exposure_id ctx s = (.ok (Value.nat ev), s1, t1))
    (hd : to_detector_num ctx s1 = (.ok (Value.nat dn), s2, t2)) :
    to_detector_exposure_id ctx s =
      (.ok (Value.nat (_get_detector_exposure_id dn ev)),
        ⟨("detector_exposure_id", Value.nat (_get_detector_exposure_id dn ev)) ::
          s2.cache, s2.used_cards⟩, t1 ++ t2) := by
  unfold to_detector_exposure_id cache_translation bindT pureT throwT
  rw [hc, he]
  dsimp only
  rw [hd]
  dsimp only
  simp

theorem to_detector_exposure_id_run_fail (ctx : Ctx) (s s1 s2 : TransState)
    (ev : Nat) (err : String) (t1 t2 : List String)
    (hc : s.cache.lookup "detector_exposure_id" = none)
    (he : to_exposure_id ctx s = (.ok (Value.nat ev), s1, t1))
    (hd : to_detector_num ctx s1 = (.error err, s2, t2)) :
    to_detector_exposure_id ctx s = (.error err, s2, t1 ++ t2) := by
  unfold to_detector_exposure_id cache_translation bindT pureT throwT
  rw [hc, he]
  dsimp only
  rw [hd]

theorem to_observation_id_run_ok (ctx : Ctx) (s s1 : TransState) (n : Nat)
    (t : List String)
    (hc : s.cache.lookup "observation_id" = none)
    (hd : to_detector_exposure_id ctx s = (.ok (Value.nat n), s1, t)) :
    to_observation_id ctx s = (.ok (Value.str (Nat.repr n)),
      ⟨("observation_id", Value.str (Nat.repr n)) :: s1.cache, s1.used_cards⟩,
      t) := by
  unfold to_observation_id cache_translation bindT pureT throwT
  rw [hc, hd]
  dsimp only
  simp

theorem to_observation_id_run_fail (ctx : Ctx) (s s1 : TransState)
    (err : String) (t : List String)
    (hc : s.cache.lookup "observation_id" = none)
    (hd : to_detector_exposure_id ctx s = (.error err, s1, t)) :
    to_observation_id ctx s = (.error err, s1, t) := by
  unfold to_observation_id cache_translation bindT pureT throwT
  rw [hc, hd]

theorem to_observation_type_run (ctx : Ctx) (s : TransState) (lbl : String)
    (used : List String)
    (hc : s.cache.lookup "observation_type" = none)
    (hobs : ctx.header_to_observation_type ctx.header = .ok (lbl, used)) :
    to_observation_type ctx s = (.ok (Value.str lbl),
      ⟨("observation_type", Value.str lbl) :: s.cache, s.used_cards ++ used⟩,
      []) := by
  unfold to_observation_type cache_translation bindT pureT throwT
    _used_these_cards
  rw [hc, hobs]
  rfl

theorem cache_translation_caches (field : String) (body : TransM Value)
    (s s1 : TransState) (v : Value) (t : List String)
    (h : cache_translation field body s = (.ok v, s1, t)) :
    s1.cache.lookup field = some v := by
  unfold cache_translation at h
  cases hc : s.cache.lookup field with
  | some w =>
    rw [hc] at h
    simp only [Prod.mk.injEq] at h
    obtain ⟨hv, hs, _⟩ := h
    injection hv with hv
    rw [← hs, hc, hv]
  | none =>
    rw [hc] at h
    rcases hb : body s with ⟨r, s2, t2⟩
    rw [hb] at h
    cases r with
    | ok w =>
      simp only [Prod.mk.injEq] at h
      obtain ⟨hv, hs, _⟩ := h
      injection hv with hv
      rw [← hs]
      simp [List.lookup, hv]
    | error e =>
      simp only [Prod.mk.injEq] at h
      obtain ⟨hv, _, _⟩ := h
      exact Except.noConfusion hv

theorem camLoop_none (name : String) : ∀ (l : List Device) (k : Nat),
    (∀ c ∈ l, c.camera_name ≠ name) → camLoop name l k = none := by
  intro l
  induction l with
  | nil => intro k _; rfl
  | cons c rest ih =>
    intro k hall
    unfold camLoop
    rw [if_neg (hall c (List.mem_cons_self c rest))]
    exact ih (k + 1) (fun x hx => hall x (List.mem_cons_of_mem c hx))

theorem camLoop_first (name : String) (c : Device) (suf : List Device)
    (hc : c.camera_name = name) : ∀ (pre : List Device) (k : Nat),
    (∀ x ∈ pre, x.camera_name ≠ name) →
    camLoop name (pre ++ c :: suf) k = some (k + pre.length + 1) := by
  intro pre
  induction pre with
  | nil =>
    intro k _
    simp only [List.nil_append, camLoop]
    rw [if_pos hc]
    simp
  | cons x rest ih =>
    intro k hall
    simp only [List.cons_append, camLoop]
    rw [if_neg (hall x (List.mem_cons_self x rest))]
    rw [show rest.append (c :: suf) = rest ++ c :: suf from rfl,
      ih (k + 1) (fun z hz => hall z (List.mem_cons_of_mem x hz))]
    congr 1
    simp only [List.length_cons]
    omega

/-- C7.  `detectorNum` resolution returns the 1-based position of the
FIRST device descriptor whose name matches; when no descriptor matches it
fails with the unknown-device `RuntimeError`, that failure also surfaces
from `to_detector_num`, `to_detector_exposure_id` and `to_observation_id`
on a fresh record, and an unrelated field (`to_observation_type`) still
resolves on the same record. -/
theorem detector_num_resolution :
    (∀ (devices : List Device) (name : String) (pre suf : List Device)
      (c : Device), devices = pre ++ c :: suf → c.camera_name = name →
      (∀ x ∈ pre, x.camera_name ≠ name) →
      _get_camera_num_from_config devices name = .ok (pre.length + 1)) ∧
    (∀ (devices : List Device) (name : String),
      (∀ x ∈ devices, x.camera_name ≠ name) →
      _get_camera_num_from_config devices name =
        .error ("Camera " ++ name ++ " not present in config.")) ∧
    (∀ (ctx : Ctx) (key nm : String) (u : List String),
      ctx.trivialMap.lookup "detector_name" = some key →
      ctx.header.lookup key = some nm →
      (∀ x ∈ ctx.devices, x.camera_name ≠ nm) →
      ((∃ s1 t1, to_detector_num ctx ⟨[], u⟩ =
          (.error ("Camera " ++ nm ++ " not present in config."), s1, t1)) ∧
        (∀ raw dt ev, ctx.header.lookup "DATE-OBS" = some raw →
          ctx.parse_date raw = .ok dt → _get_exposure_id dt = .ok ev →
          (∃ s2 t2, to_detector_exposure_id ctx ⟨[], u⟩ =
            (.error ("Camera " ++ nm ++ " not present in config."), s2, t2)) ∧
          (∃ s3 t3, to_observation_id ctx ⟨[], u⟩ =
            (.error ("Camera " ++ nm ++ " not present in config."), s3, t3))) ∧
        (∀ lbl used, ctx.header_to_observation_type ctx.header = .ok (lbl, used) →
          ∃ s4 t4, to_observation_type ctx ⟨[], u⟩ =
            (.ok (Value.str lbl), s4, t4)))) := by
  refine ⟨?_, ?_, ?_⟩
  · intro devices name pre suf c hdev hc hall
    subst hdev
    unfold _get_camera_num_from_config
    rw [camLoop_first name c suf hc pre 0 hall]
    simp
  · intro devices name hall
    unfold _get_camera_num_from_config
    rw [camLoop_none name devices 0 hall]
  · intro ctx key nm u hkey hnm hall
    have hcam : _get_camera_num_from_config ctx.devices nm =
        .error ("Camera " ++ nm ++ " not present in config.") := by
      unfold _get_camera_num_from_config
      rw [camLoop_none nm ctx.devices 0 hall]
    refine ⟨?_, ?_, ?_⟩
    · exact ⟨_, _, to_detector_num_run_fail ctx ⟨[], u⟩ key nm _
        (by simp) (by simp) hkey hnm hcam⟩
    · intro raw dt ev hraw hdt hev
      have he : to_exposure_id ctx ⟨[], u⟩ = (.ok (Value.nat ev),
          ⟨[("exposure_id", Value.nat ev)], u ++ ["DATE-OBS"]⟩, ["DATE-OBS"]) :=
        to_exposure_id_run_ok ctx ⟨[], u⟩ raw dt ev (by simp) hraw hdt hev
      have hd : to_detector_num ctx
          ⟨[("exposure_id", Value.nat ev)], u ++ ["DATE-OBS"]⟩ =
          (.error ("Camera " ++ nm ++ " not present in config."),
            ⟨[("detector_name", Value.str nm), ("exposure_id", Value.nat ev)],
              (u ++ ["DATE-OBS"]) ++ [key]⟩, [key]) :=
        to_detector_num_run_fail ctx _ key nm _ (by simp) (by simp) hkey hnm hcam
      have hdexp := to_detector_exposure_id_run_fail ctx ⟨[], u⟩ _ _ ev _ _ _
        (by simp) he hd
      exact ⟨⟨_, _, hdexp⟩,
        ⟨_, _, to_observation_id_run_fail ctx _ _ _ _ (by simp) hdexp⟩⟩
    · intro lbl used hobs
      exact ⟨_, _, to_observation_type_run ctx ⟨[], u⟩ lbl used (by simp) hobs⟩

/-- Witness for `detector_num_resolution`: a two-device registry resolves
its second device to index 2; an absent name errors; on the fixture
context whose header names an unknown camera, `to_detector_num` fails
with the unknown-device error while `to_observation_type` still
resolves. -/
theorem detector_num_resolution_witness :
    _get_camera_num_from_config [⟨"a"⟩, ⟨"b"⟩] "b" = .ok 2 ∧
    _get_camera_num_from_config [⟨"a"⟩] "z" =
      .error ("Camera " ++ "z" ++ " not present in config.") ∧
    (∃ s1 t1, to_detector_num exampleCtxUnknown ⟨[], []⟩ =
      (.error ("Camera " ++ "huntsman-cam9" ++ " not present in config."),
        s1, t1)) ∧
    (∃ s4 t4, to_observation_type exampleCtxUnknown ⟨[], []⟩ =
      (.ok (Value.str "dark"), s4, t4)) := by
  obtain ⟨p1, p2, p3⟩ := detector_num_resolution
  have h := p3 exampleCtxUnknown "CAM-ID" "huntsman-cam9" [] rfl rfl (by decide)
  exact ⟨p1 [⟨"a"⟩, ⟨"b"⟩] "b" [⟨"a"⟩] [] ⟨"b"⟩ rfl rfl (by decide),
    p2 [⟨"a"⟩] "z" (by decide), h.1, h.2.2 "dark" ["IMAGETYP"] rfl⟩

/-- C8.  On a fresh record on which resolution succeeds, the resolved
`visit_id` and `observation_counter` equal the resolved `exposure_id`,
and the resolved `observation_id` is the decimal-string form of the
resolved `detector_exposure_id`. -/
theorem derived_ids_equal (ctx : Ctx) (raw key nm : String) (dt : Datetime)
    (ev dn : Nat) (u : List String)
    (hraw : ctx.header.lookup "DATE-OBS" = some raw)
    (hdt : ctx.parse_date raw = .ok dt)
    (hev : _get_exposure_id dt = .ok ev)
    (hkey : ctx.trivialMap.lookup "detector_name" = some key)
    (hnm : ctx.header.lookup key = some nm)
    (hdn : _get_camera_num_from_config ctx.devices nm = .ok dn) :
    ∃ s1 s2 s3 s4 s5 t1 t4,
      to_exposure_id ctx ⟨[], u⟩ = (.ok (Value.nat ev), s1, t1) ∧
      to_visit_id ctx s1 = (.ok (Value.nat ev), s2, []) ∧
      to_observation_counter ctx s2 = (.ok (Value.nat ev), s3, []) ∧
      to_detector_exposure_id ctx s3 =
        (.ok (Value.nat (_get_detector_exposure_id dn ev)), s4, t4) ∧
      to_observation_id ctx s4 =
        (.ok (Value.str (Nat.repr (_get_detector_exposure_id dn ev))), s5, []) := by
  have h1 : to_exposure_id ctx ⟨[], u⟩ = (.ok (Value.nat ev),
      ⟨[("exposure_id", Value.nat ev)], u ++ ["DATE-OBS"]⟩, ["DATE-OBS"]) :=
    to_exposure_id_run_ok ctx ⟨[], u⟩ raw dt ev (by simp) hraw hdt hev
  have h2 : to_visit_id ctx ⟨[("exposure_id", Value.nat ev)], u ++ ["DATE-OBS"]⟩ =
      (.ok (Value.nat ev),
        ⟨[("visit_id", Value.nat ev), ("exposure_id", Value.nat ev)],
          u ++ ["DATE-OBS"]⟩, []) :=
    to_visit_id_run ctx _ (Value.nat ev) (by simp) (by simp)
  have h3 : to_observation_counter ctx
      ⟨[("visit_id", Value.nat ev), ("exposure_id", Value.nat ev)],
        u ++ ["DATE-OBS"]⟩ =
      (.ok (Value.nat ev),
        ⟨[("observation_counter", Value.nat ev), ("visit_id", Value.nat ev),
          ("exposure_id", Value.nat ev)], u ++ ["DATE-OBS"]⟩, []) :=
    to_observation_counter_run ctx _ (Value.nat ev) (by simp) (by rfl)
  have hePrev : to_exposure_id ctx
      ⟨[("observation_counter", Value.nat ev), ("visit_id", Value.nat ev),
        ("exposure_id", Value.nat ev)], u ++ ["DATE-OBS"]⟩ =
      (.ok (Value.nat ev),
        ⟨[("observation_counter", Value.nat ev), ("visit_id", Value.nat ev),
          ("exposure_id", Value.nat ev)], u ++ ["DATE-OBS"]⟩, []) :=
    to_exposure_id_hit ctx _ _ (by rfl)
  have hd : to_detector_num ctx
      ⟨[("observation_counter", Value.nat ev), ("visit_id", Value.nat ev),
        ("exposure_id", Value.nat ev)], u ++ ["DATE-OBS"]⟩ =
      (.ok (Value.nat dn),
        ⟨[("detector_num", Value.nat dn), ("detector_name", Value.str nm),
          ("observation_counter", Value.nat ev), ("visit_id", Value.nat ev),
          ("exposure_id", Value.nat ev)], (u ++ ["DATE-OBS"]) ++ [key]⟩,
        [key]) :=
    to_detector_num_run_ok ctx _ key nm dn (by simp) (by simp) hkey hnm hdn
  have h4 : to_detector_exposure_id ctx
      ⟨[("observation_counter", Value.nat ev), ("visit_id", Value.nat ev),
        ("exposure_id", Value.nat ev)], u ++ ["DATE-OBS"]⟩ =
      (.ok (Value.nat (_get_detector_exposure_id dn ev)),
        ⟨[("detector_exposure_id", Value.nat (_get_detector_exposure_id dn ev)),
          ("detector_num", Value.nat dn), ("detector_name", Value.str nm),
          ("observation_counter", Value.nat ev), ("visit_id", Value.nat ev),
          ("exposure_id", Value.nat ev)], (u ++ ["DATE-OBS"]) ++ [key]⟩,
        [key]) :=
    to_detector_exposure_id_run_ok ctx _ _ _ ev dn [] [key] (by simp) hePrev hd
  have h5 : to_observation_id ctx
      ⟨[("detector_exposure_id", Value.nat (_get_detector_exposure_id dn ev)),
        ("detector_num", Value.nat dn), ("detector_name", Value.str nm),
        ("observation_counter", Value.nat ev), ("visit_id", Value.nat ev),
        ("exposure_id", Value.nat ev)], (u ++ ["DATE-OBS"]) ++ [key]⟩ =
      (.ok (Value.str (Nat.repr (_get_detector_exposure_id dn ev))),
        ⟨[("observation_id",
            Value.str (Nat.repr (_get_detector_exposure_id dn ev))),
          ("detector_exposure_id", Value.nat (_get_detector_exposure_id dn ev)),
          ("detector_num", Value.nat dn), ("detector_name", Value.str nm),
          ("observation_counter", Value.nat ev), ("visit_id", Value.nat ev),
          ("exposure_id", Value.nat ev)], (u ++ ["DATE-OBS"]) ++ [key]⟩,
        []) :=
    to_observation_id_run_ok ctx _ _ _ [] (by simp)
      (to_detector_exposure_id_hit ctx _ _ (by simp))
  exact ⟨_, _, _, _, _, _, _, h1, h2, h3, h4, h5⟩

/-- Witness for `derived_ids_equal` on the fixture context: the IDs of
the worked example, with detector 3. -/
theorem derived_ids_equal_witness :
    ∃ s1 s2 s3 s4 s5 t1 t4,
      to_exposure_id exampleCtx ⟨[], []⟩ =
        (.ok (Value.nat 210304123045678), s1, t1) ∧
      to_visit_id exampleCtx s1 = (.ok (Value.nat 210304123045678), s2, []) ∧
      to_observation_counter exampleCtx s2 =
        (.ok (Value.nat 210304123045678), s3, []) ∧
      to_detector_exposure_id exampleCtx s3 =
        (.ok (Value.nat 3210304123045678), s4, t4) ∧
      to_observation_id exampleCtx s4 =
        (.ok (Value.str (Nat.repr 3210304123045678)), s5, []) := by
  exact derived_ids_equal exampleCtx "2021-03-04T12:30:45.678" "CAM-ID"
    "huntsman-cam3" exampleDate 210304123045678 3 [] rfl rfl rfl rfl rfl rfl

/-- C9.  Modelled from the spec: every attribute accessor is the
`cache_translation` memoization wrapper around some body.  If a call on
a record succeeds, a second call on the same record returns the
identical value, leaves the record's state (cache and used-keys set)
unchanged, and performs no header-key lookups at all: the result is
served from the per-field cache without re-running the body. -/
theorem cache_translation_idempotent (field : String) (body : TransM Value)
    (s s1 : TransState) (v : Value) (t : List String)
    (h : cache_translation field body s = (.ok v, s1, t)) :
    cache_translation field body s1 = (.ok v, s1, []) := by
  exact cache_translation_hit field body s1 v
    (cache_translation_caches field body s s1 v t h)

/-- Witness for `cache_translation_idempotent`: running `to_exposure_id`
twice on the fixture record; the second call returns the same ID with no
state change and no header lookups. -/
theorem cache_translation_idempotent_witness :
    to_exposure_id exampleCtx ⟨[], []⟩ = (.ok (Value.nat 210304123045678),
      ⟨[("exposure_id", Value.nat 210304123045678)], ["DATE-OBS"]⟩,
      ["DATE-OBS"]) ∧
    to_exposure_id exampleCtx
      ⟨[("exposure_id", Value.nat 210304123045678)], ["DATE-OBS"]⟩ =
      (.ok (Value.nat 210304123045678),
        ⟨[("exposure_id", Value.nat 210304123045678)], ["DATE-OBS"]⟩, []) := by
  have h1 : to_exposure_id exampleCtx ⟨[], []⟩ =
      (.ok (Value.nat 210304123045678),
        ⟨[("exposure_id", Value.nat 210304123045678)], ["DATE-OBS"]⟩,
        ["DATE-OBS"]) := rfl
  exact ⟨h1, cache_translation_idempotent "exposure_id" _ ⟨[], []⟩ _ _ _ h1⟩

/-- C10.  When `to_exposure_id` or `to_datetime_begin` fails (missing
`DATE-OBS`, unparseable date, or — for `to_exposure_id` — an encoding
error), the record's used-keys set is unchanged by the call: keys are
marked as used only after the field's value has been computed. -/
theorem failed_resolution_preserves_used_cards (ctx : Ctx) (s : TransState) :
    (∀ e s1 t, to_exposure_id ctx s = (.error e, s1, t) →
      s1.used_cards = s.used_cards) ∧
    (∀ e s1 t, to_datetime_begin ctx s = (.error e, s1, t) →
      s1.used_cards = s.used_cards) := by
  constructor
  · intro e s1 t h
    cases hc : s.cache.lookup "exposure_id" with
    | some v =>
      rw [to_exposure_id_hit ctx s v hc] at h
      simp at h
    | none =>
      cases hraw : ctx.header.lookup "DATE-OBS" with
      | none =>
        rw [to_exposure_id_err_missing ctx s hc hraw] at h
        simp only [Prod.mk.injEq] at h
        rw [← h.2.1]
      | some raw =>
        cases hdt : ctx.parse_date raw with
        | error e2 =>
          rw [to_exposure_id_err_parse ctx s raw e2 hc hraw hdt] at h
          simp only [Prod.mk.injEq] at h
          rw [← h.2.1]
        | ok dt =>
          cases hev : _get_exposure_id dt with
          | error e3 =>
            rw [to_exposure_id_err_encode ctx s raw e3 dt hc hraw hdt hev] at h
            simp only [Prod.mk.injEq] at h
            rw [← h.2.1]
          | ok ev =>
            rw [to_exposure_id_run_ok ctx s raw dt ev hc hraw hdt hev] at h
            simp at h
  · intro e s1 t h
    cases hc : s.cache.lookup "datetime_begin" with
    | some v =>
      rw [to_datetime_begin_hit ctx s v hc] at h
      simp at h
    | none =>
      cases hraw : ctx.header.lookup "DATE-OBS" with
      | none =>
        rw [to_datetime_begin_err_missing ctx s hc hraw] at h
        simp only [Prod.mk.injEq] at h
        rw [← h.2.1]
      | some raw =>
        cases hdt : ctx.parse_date raw with
        | error e2 =>
          rw [to_datetime_begin_err_parse ctx s raw e2 hc hraw hdt] at h
          simp only [Prod.mk.injEq] at h
          rw [← h.2.1]
        | ok dt =>
          rw [to_datetime_begin_run_ok ctx s raw dt hc hraw hdt] at h
          simp at h

/-- Witness for `failed_resolution_preserves_used_cards`: a record whose
header lacks `DATE-OBS` fails `to_exposure_id` with a `KeyError`, and its
used-keys set still holds exactly its prior entry. -/
theorem failed_resolution_preserves_used_cards_witness :
    to_exposure_id ⟨[], [], [], fun _ => .error "x", fun _ => .error "y"⟩
      ⟨[], ["FILTER"]⟩ =
      (.error ("KeyError: " ++ "DATE-OBS"), ⟨[], ["FILTER"]⟩, ["DATE-OBS"]) ∧
    (⟨[], ["FILTER"]⟩ : TransState).used_cards = ["FILTER"] := by
  have h1 : to_exposure_id
      (⟨[], [], [], fun _ => .error "x", fun _ => .error "y"⟩ : Ctx)
      ⟨[], ["FILTER"]⟩ =
      (.error ("KeyError: " ++ "DATE-OBS"), ⟨[], ["FILTER"]⟩, ["DATE-OBS"]) := rfl
  have h2 := (failed_resolution_preserves_used_cards
    ⟨[], [], [], fun _ => .error "x", fun _ => .error "y"⟩ ⟨[], ["FILTER"]⟩).1
    _ _ _ h1
  exact ⟨h1, h2.trans rfl⟩
